import Mathlib

/-!
Shallow embedding of TuiCraft's download engine (`src/download.py`) and
theorems checking the specification's claims about it.

Paths are modelled as lists of components (the successive arguments of
`os.path.join`), file contents as strings, and the ambient world (network
responses, JSON parsing, writability of paths) as an oracle record so that
every run of the embedded code is a pure computation.
-/

deriving instance DecidableEq for Except

namespace TuiCraft

/-- A filesystem path, as the list of components joined by `os.path.join`. -/
abbrev Path := List String

/-- File contents (bytes abstracted as a string). -/
abbrev Content := String

/-- The local filesystem: files (first entry for a path wins, so a fresh
write shadows an older one) and the set of directories that exist. -/
structure FS where
  files : List (Path × Content)
  dirs : List Path
deriving DecidableEq, Inhabited

/-- `os.path.exists`: true for files and for directories. -/
def pathExists (fs : FS) (p : Path) : Bool :=
  fs.files.any (fun e => e.1 == p) || fs.dirs.any (fun d => d == p)

/-- `open(p, "wb").write(c)`: create or truncate the file at `p`. -/
def writeFile (fs : FS) (p : Path) (c : Content) : FS :=
  { fs with files := (p, c) :: fs.files }

/-- `open(p, "r").read()`: `none` when no file is at `p` (FileNotFoundError). -/
def readFile (fs : FS) (p : Path) : Option Content :=
  fs.files.lookup p

/-- `os.makedirs(p, exist_ok=True)`: creates `p` and every intermediate
directory, i.e. every prefix of `p`. -/
def mkdirs (fs : FS) (p : Path) : FS :=
  { fs with dirs := p.inits ++ fs.dirs }

/-- Behaviour of one streamed `requests.get` as performed by `download_file`:
the whole body arrives, the request fails before the body is opened
(connection error, timeout, or non-2xx status raised by `raise_for_status`),
or the stream breaks after a prefix of the body has been written. -/
inductive NetBehavior where
  | success (content : Content)
  | failEarly
  | failMid (pre : Content)
deriving DecidableEq

/-- An HTTP response for the plain (non-streamed) `requests.get` calls in
`main`. -/
structure HttpResponse where
  status : Nat
  content : Content
deriving DecidableEq

/-- A library entry's `downloads.artifact` object (present and truthy). -/
structure Artifact where
  url : String
  path : String
deriving DecidableEq

/-- The fields of the per-version JSON that `main` reads: the client JAR url,
the library list (`none` models an entry whose `downloads.get("artifact", {})`
is falsy and is therefore dropped), and the asset index url. -/
structure VersionData where
  clientUrl : String
  libraries : List (Option Artifact)
  assetIndexUrl : String
deriving DecidableEq

/-- The ambient world: the `APPDATA` environment variable, the network, which
paths cannot be opened for writing, and the JSON parser viewed as oracles from
raw content to parsed structure (`none` = `json.load` / `response.json()`
raises). -/
structure World where
  appdata : String
  net : String → NetBehavior
  net2 : String → Option HttpResponse
  unwritable : Path → Bool
  parseManifest : Content → Option (List (String × String))
  parseVersionData : Content → Option VersionData
  parseAssetIndex : Content → Option (List (String × String))

/-- `BASE_PATH = os.path.join(APPDATA, "TuiCraft")` (line 14). -/
def BASE_PATH (w : World) : Path := [w.appdata, "TuiCraft"]

/-- `LIBRARIES_PATH = os.path.join(BASE_PATH, "libraries")` (line 15). -/
def LIBRARIES_PATH (w : World) : Path := BASE_PATH w ++ ["libraries"]

/-- `ASSETS_PATH = os.path.join(BASE_PATH, "assets")` (line 16). -/
def ASSETS_PATH (w : World) : Path := BASE_PATH w ++ ["assets"]

/-- The fixed global version-index URL (line 11). -/
def VERSION_MANIFEST_URL : String :=
  "https://launchermeta.mojang.com/mc/game/version_manifest.json"

/-- Spec-level classification of what one `download_file` call did, read off
from its log line (`Downloaded: ...`, `Failed to download ...`, or silence). -/
inductive Outcome where
  | skipped
  | downloaded
  | failed
deriving DecidableEq

/-- The exceptions that can arise inside `download_file`'s `try` block. -/
inductive PyExn where
  | requestError
  | writeError
  | streamError
deriving DecidableEq

/-- The observable result of one `download_file` call: the filesystem after
the call, the outcome, the urls actually requested over the network, and what
the caller sees (`toCaller`): either a propagated exception or the function's
Python return value, which is always `None` (modelled as `()`). -/
structure DLOut where
  fs : FS
  outcome : Outcome
  reqs : List String
  toCaller : Except PyExn Unit

/-- Lines 27–41 of `download.py`: the body of `download_file`'s `try` block.
`requests.get` either raises before the destination is opened (`failEarly`,
also covering `raise_for_status`), or the destination is opened — failing with
a write error when the path is unwritable — and the body is streamed in,
possibly breaking mid-stream after a prefix `pre` has been written. An error
carries the filesystem state at the moment the exception is raised. -/
def download_body (w : World) (fs : FS) (url : String) (savePath : Path) :
    Except (FS × PyExn) FS :=
  match w.net url with
  | .failEarly => .error (fs, .requestError)
  | .success c =>
      if w.unwritable savePath then .error (fs, .writeError)
      else .ok (writeFile fs savePath c)
  | .failMid pre =>
      if w.unwritable savePath then .error (fs, .writeError)
      else .error (writeFile fs savePath pre, .streamError)

/-- Lines 23–43 of `download.py`: skip without a request when the destination
exists, otherwise run the `try` block; `except Exception` catches every
exception, prints, and falls through, so the caller always receives a normal
return of `None`. -/
def download_file (w : World) (fs : FS) (url : String) (savePath : Path) :
    DLOut :=
  if pathExists fs savePath then ⟨fs, .skipped, [], .ok ()⟩
  else
    match download_body w fs url savePath with
    | .ok fs' => ⟨fs', .downloaded, [url], .ok ()⟩
    | .error (fs', _) => ⟨fs', .failed, [url], .ok ()⟩

/-- Result of `download_files_parallel`: final filesystem, the per-unit
outcomes in unit order, and the urls requested. -/
structure FetchOut where
  fs : FS
  outcomes : List Outcome
  reqs : List String
deriving DecidableEq

/-- Lines 54–57 of `download.py`: `executor.map(lambda file: download_file(*file),
file_list)`. The workers share no mutable state except the filesystem, so the
pool is embedded as the sequential left-to-right execution of the units. -/
def download_files_parallel (w : World) : FS → List (String × Path) → FetchOut
  | fs, [] => ⟨fs, [], []⟩
  | fs, (url, p) :: rest =>
      let r := download_file w fs url p
      let t := download_files_parallel w r.fs rest
      ⟨t.fs, r.outcome :: t.outcomes, r.reqs ++ t.reqs⟩

/-- `s.replace("\\", "/")`, character by character. -/
def normalizeSep (s : String) : String :=
  String.mk (s.toList.map (fun c => if c = '\\' then '/' else c))

/-- Python `str.split("/")` on a character list: `"" ↦ [""]`, empty segments
kept. -/
def splitSlashAux : List Char → List (List Char)
  | [] => [[]]
  | c :: cs =>
      let r := splitSlashAux cs
      if c = '/' then [] :: r
      else (c :: r.headD []) :: r.tail

/-- Python `s.split("/")`. -/
def pySplitSlash (s : String) : List String :=
  (splitSlashAux s.toList).map (fun l => String.mk l)

/-- Lines 46–51 of `download.py`: normalize backslashes, split on `/`, create
`sub_path = join(base_path, *parts[:-1])` and all intermediate directories,
and return `join(sub_path, parts[-1])`. -/
def organize_file_path (fs : FS) (base_path : Path) (file_path : String) :
    FS × Path :=
  let parts := pySplitSlash (normalizeSep file_path)
  let sub_path := base_path ++ parts.dropLast
  (mkdirs fs sub_path, sub_path ++ [parts.getLastD ""])

/-- The fatal abort reasons of `main` (uncaught exceptions or `sys.exit(1)`),
in the order the corresponding raise sites occur in the source. -/
inductive FatalError where
  | manifestUnavailable
  | manifestWriteError
  | versionNotFound
  | descriptorUnavailable
  | assetIndexMissing
  | assetIndexParseError
deriving DecidableEq

/-- `manifest_path = os.path.join(BASE_PATH, "version_manifest.json")`
(line 125). -/
def manifest_path (w : World) : Path := BASE_PATH w ++ ["version_manifest.json"]

/-- The dict comprehension of line 137: last binding of a key wins. -/
def pyDictLookup (l : List (String × String)) (k : String) : Option String :=
  l.reverse.lookup k

/-- Lines 124–149 of `download.py`: fetch the global version manifest
(aborting when the request raises or the status is not 200), persist it to
`manifest_path` (an unwritable path raises an uncaught IOError), parse the
persisted bytes (a `json.load` failure is an uncaught fatal exception,
classified here with `manifestUnavailable` as the spec's taxonomy does),
look the requested version up in the id→url dictionary (absence prints and
`sys.exit(1)`s), and fetch + parse the version descriptor. Returns the
request log alongside the outcome. -/
def resolveDescriptor (w : World) (fs0 : FS) (versionId : String) :
    List String × Except FatalError (FS × VersionData) :=
  match w.net2 VERSION_MANIFEST_URL with
  | none => ([VERSION_MANIFEST_URL], .error .manifestUnavailable)
  | some resp =>
      if resp.status == 200 then
        if w.unwritable (manifest_path w) then
          ([VERSION_MANIFEST_URL], .error .manifestWriteError)
        else
          let fs1 := writeFile fs0 (manifest_path w) resp.content
          match w.parseManifest resp.content with
          | none => ([VERSION_MANIFEST_URL], .error .manifestUnavailable)
          | some vlist =>
              match pyDictLookup vlist versionId with
              | none => ([VERSION_MANIFEST_URL], .error .versionNotFound)
              | some versionUrl =>
                  match w.net2 versionUrl with
                  | none =>
                      ([VERSION_MANIFEST_URL, versionUrl],
                       .error .descriptorUnavailable)
                  | some vresp =>
                      if vresp.status == 200 then
                        match w.parseVersionData vresp.content with
                        | none =>
                            ([VERSION_MANIFEST_URL, versionUrl],
                             .error .descriptorUnavailable)
                        | some vd =>
                            ([VERSION_MANIFEST_URL, versionUrl],
                             .ok (fs1, vd))
                      else
                        ([VERSION_MANIFEST_URL, versionUrl],
                         .error .descriptorUnavailable)
      else ([VERSION_MANIFEST_URL], .error .manifestUnavailable)

/-- `version_libraries_path = os.path.join(LIBRARIES_PATH, version_id)`
(line 153). -/
def version_libraries_path (w : World) (versionId : String) : Path :=
  LIBRARIES_PATH w ++ [versionId]

/-- `client_path = os.path.join(version_libraries_path, f"{version_id}.jar")`
(line 154). -/
def client_path (w : World) (versionId : String) : Path :=
  version_libraries_path w versionId ++ [versionId ++ ".jar"]

/-- Lines 151–156 of `download.py` (step 4): create the version's library
directory and download the client JAR through `download_file` — whose outcome,
by construction of `download_file`, never reaches `main`. -/
def step4_client (w : World) (fs : FS) (vd : VersionData) (versionId : String) :
    DLOut :=
  let fs1 := mkdirs fs (version_libraries_path w versionId)
  download_file w fs1 vd.clientUrl (client_path w versionId)

/-- Lines 159–168 of `download.py`: project each library entry having a
truthy `downloads.artifact` to one `(url, destination)` pair, splitting the
artifact path on `/`, rejoining it, and organizing it under the version's
library directory; entries without an artifact are dropped. -/
def expand_libraries (vlp : Path) :
    FS → List (Option Artifact) → FS × List (String × Path)
  | fs, [] => (fs, [])
  | fs, none :: rest => expand_libraries vlp fs rest
  | fs, some a :: rest =>
      let joined := String.intercalate "/" (pySplitSlash a.path)
      let o := organize_file_path fs vlp joined
      let r := expand_libraries vlp o.1 rest
      (r.1, (a.url, o.2) :: r.2)

/-- Result of the library step: filesystem, the scheduled units, their
outcomes, and the requests issued. -/
structure Step5Out where
  fs : FS
  units : List (String × Path)
  outcomes : List Outcome
  reqs : List String

/-- Lines 159–171 of `download.py` (step 5): expand the libraries and fetch
them in parallel. -/
def step5_libraries (w : World) (fs : FS) (vd : VersionData)
    (versionId : String) : Step5Out :=
  let e := expand_libraries (version_libraries_path w versionId) fs vd.libraries
  let d := download_files_parallel w e.1 e.2
  ⟨d.fs, e.2, d.outcomes, d.reqs⟩

/-- `version_assets_path = os.path.join(ASSETS_PATH, version_id)` (line 174). -/
def version_assets_path (w : World) (versionId : String) : Path :=
  ASSETS_PATH w ++ [versionId]

/-- `asset_index_path` (line 176). -/
def asset_index_path (w : World) (versionId : String) : Path :=
  version_assets_path w versionId ++ ["indexes", versionId ++ ".json"]

/-- The asset CDN url template of line 187. -/
def asset_object_url (h : String) : String :=
  "https://resources.download.minecraft.net/" ++ h.take 2 ++ "/" ++ h

/-- The asset destination of line 188:
`join(version_assets_path, "objects", hash[:2], hash)`. -/
def asset_object_path (w : World) (versionId h : String) : Path :=
  version_assets_path w versionId ++ ["objects", h.take 2, h]

/-- Lines 183–190 of `download.py`: one `(url, destination)` pair per entry
of `assets_data["objects"]`, creating each shard directory on the way. The
loop runs once per logical asset name; nothing deduplicates by hash. -/
def expand_assets (w : World) (versionId : String) :
    FS → List (String × String) → FS × List (String × Path)
  | fs, [] => (fs, [])
  | fs, (_, h) :: rest =>
      let fs1 := mkdirs fs (version_assets_path w versionId ++ ["objects", h.take 2])
      let r := expand_assets w versionId fs1 rest
      (r.1, (asset_object_url h, asset_object_path w versionId h) :: r.2)

/-- Result of the asset step: the request log, and either a fatal abort or
the final filesystem with the scheduled asset units and their outcomes. -/
structure Step6Out where
  log : List String
  result : Except FatalError (FS × List (String × Path) × List Outcome)

/-- Lines 174–178 of `download.py`: create the `indexes` directory (the
`os.makedirs(os.path.dirname(asset_index_path))` of line 177) and fetch the
asset index through `download_file`, which swallows its own failures. -/
def step6_fetch_index (w : World) (fs : FS) (vd : VersionData)
    (versionId : String) : DLOut :=
  download_file w (mkdirs fs (version_assets_path w versionId ++ ["indexes"]))
    vd.assetIndexUrl (asset_index_path w versionId)

/-- Lines 180–181 of `download.py`: `open` the persisted asset index —
raising FileNotFoundError when the fetch left no file behind — and
`json.load` it — raising on malformed content. Either raise aborts `main`. -/
def step6_read_index (w : World) (d : DLOut) (versionId : String) :
    Except FatalError (List (String × String)) :=
  match readFile d.fs (asset_index_path w versionId) with
  | none => .error .assetIndexMissing
  | some content =>
      match w.parseAssetIndex content with
      | none => .error .assetIndexParseError
      | some objects => .ok objects

/-- Lines 173–193 of `download.py` (step 6): fetch and read the asset index,
then expand the objects and fetch them in parallel. -/
def step6_assets (w : World) (fs : FS) (vd : VersionData) (versionId : String) :
    Step6Out :=
  let d := step6_fetch_index w fs vd versionId
  match step6_read_index w d versionId with
  | .error e => ⟨d.reqs, .error e⟩
  | .ok objects =>
      let e := expand_assets w versionId d.fs objects
      let dl := download_files_parallel w e.1 e.2
      ⟨d.reqs ++ dl.reqs, .ok (dl.fs, e.2, dl.outcomes)⟩

/-- The aggregate observable result of a completed run of `main`. -/
structure RunReport where
  fs : FS
  clientOutcome : Outcome
  libraryUnits : List (String × Path)
  libraryOutcomes : List Outcome
  assetUnits : List (String × Path)
  assetOutcomes : List Outcome
deriving DecidableEq

/-- Steps 4–6 of `main` in sequence. `main` never branches on the client
outcome: it proceeds to libraries and assets unconditionally. -/
def runFrom4 (w : World) (fs : FS) (vd : VersionData) (versionId : String) :
    List String × Except FatalError RunReport :=
  let c := step4_client w fs vd versionId
  let l := step5_libraries w c.fs vd versionId
  let a := step6_assets w l.fs vd versionId
  match a.result with
  | .error e => (c.reqs ++ l.reqs ++ a.log, .error e)
  | .ok (fsF, aUnits, aOuts) =>
      (c.reqs ++ l.reqs ++ a.log,
       .ok ⟨fsF, c.outcome, l.units, l.outcomes, aUnits, aOuts⟩)

/-- `main` for a version argument (lines 121–194): resolve the descriptor,
then run steps 4–6; a fatal error anywhere aborts the process. The first
component is the chronological log of urls requested. -/
def mainRun (w : World) (fs0 : FS) (versionId : String) :
    List String × Except FatalError RunReport :=
  match resolveDescriptor w fs0 versionId with
  | (log, .error e) => (log, .error e)
  | (log, .ok (fs1, vd)) =>
      let r := runFrom4 w fs1 vd versionId
      (log ++ r.1, r.2)

/-! ## Helper lemmas about the filesystem model and the fetch engine -/

theorem pathExists_writeFile (fs : FS) (p q : Path) (c : Content) :
    pathExists (writeFile fs p c) q = ((p == q) || pathExists fs q) := by
  simp [pathExists, writeFile, Bool.or_assoc]

theorem pathExists_mkdirs_of_exists (fs : FS) (d q : Path)
    (h : pathExists fs q = true) : pathExists (mkdirs fs d) q = true := by
  simp only [pathExists, mkdirs, List.any_append, Bool.or_eq_true] at h ⊢
  tauto

theorem pathExists_mkdirs_of_not (fs : FS) (d q : Path)
    (h1 : pathExists fs q = false) (h2 : ¬ q <+: d) :
    pathExists (mkdirs fs d) q = false := by
  simp only [pathExists, mkdirs, List.any_append, Bool.or_eq_false_iff,
    List.any_eq_false] at h1 ⊢
  refine ⟨h1.1, fun x hx => ?_, h1.2⟩
  simp only [List.mem_inits] at hx
  simp only [beq_eq_false_iff_ne, Bool.not_eq_true]
  intro hxq
  exact h2 (hxq ▸ hx)

theorem readFile_writeFile_self (fs : FS) (p : Path) (c : Content) :
    readFile (writeFile fs p c) p = some c := by
  simp [readFile, writeFile, List.lookup]

theorem lookup_eq_none_of_forall_ne {α β : Type} [BEq α] [LawfulBEq α]
    (l : List (α × β)) (a : α) (h : ∀ e ∈ l, e.1 ≠ a) : l.lookup a = none := by
  induction l with
  | nil => rfl
  | cons e rest ih =>
      obtain ⟨k, v⟩ := e
      have hk : (a == k) = false :=
        beq_eq_false_iff_ne.mpr (Ne.symm (h (k, v) (List.mem_cons_self _ _)))
      simp only [List.lookup, hk]
      exact ih (fun x hx => h x (List.mem_cons_of_mem _ hx))

theorem readFile_eq_none_of_not_exists (fs : FS) (p : Path)
    (h : pathExists fs p = false) : readFile fs p = none := by
  refine lookup_eq_none_of_forall_ne fs.files p (fun e he hep => ?_)
  have : pathExists fs p = true := by
    simp only [pathExists, Bool.or_eq_true, List.any_eq_true]
    exact Or.inl ⟨e, he, by simp [hep]⟩
  rw [this] at h
  cases h

/-- Case characterization of `download_file`: the five possible behaviours of
lines 23–43, by destination presence, network behaviour, and writability. -/
theorem download_file_eq (w : World) (fs : FS) (url : String) (p : Path) :
    download_file w fs url p =
      if pathExists fs p = true then ⟨fs, .skipped, [], .ok ()⟩
      else match w.net url with
        | .failEarly => ⟨fs, .failed, [url], .ok ()⟩
        | .success c =>
            if w.unwritable p = true then ⟨fs, .failed, [url], .ok ()⟩
            else ⟨writeFile fs p c, .downloaded, [url], .ok ()⟩
        | .failMid pre =>
            if w.unwritable p = true then ⟨fs, .failed, [url], .ok ()⟩
            else ⟨writeFile fs p pre, .failed, [url], .ok ()⟩ := by
  by_cases hp : pathExists fs p = true
  · simp [download_file, hp]
  · simp only [Bool.not_eq_true] at hp
    cases hn : w.net url with
    | failEarly => simp [download_file, download_body, hp, hn]
    | success c =>
        by_cases hw : w.unwritable p = true <;>
          simp [download_file, download_body, hp, hn, hw]
    | failMid pre =>
        by_cases hw : w.unwritable p = true <;>
          simp [download_file, download_body, hp, hn, hw]

theorem download_file_of_exists (w : World) (fs : FS) (url : String) (p : Path)
    (h : pathExists fs p = true) :
    download_file w fs url p = ⟨fs, .skipped, [], .ok ()⟩ := by
  simp [download_file, h]

theorem download_file_fs_mono (w : World) (fs : FS) (url : String) (p q : Path)
    (h : pathExists fs q = true) :
    pathExists (download_file w fs url p).fs q = true := by
  rw [download_file_eq]
  by_cases hp : pathExists fs p = true
  · simp [hp, h]
  · simp only [Bool.not_eq_true] at hp
    simp only [hp, Bool.false_eq_true, if_false]
    cases w.net url with
    | failEarly => simp [h]
    | success c =>
        by_cases hw : w.unwritable p = true <;>
          simp [hw, pathExists_writeFile, h]
    | failMid pre =>
        by_cases hw : w.unwritable p = true <;>
          simp [hw, pathExists_writeFile, h]

theorem download_file_not_failed_exists (w : World) (fs : FS) (url : String)
    (p : Path) (h : (download_file w fs url p).outcome ≠ .failed) :
    pathExists (download_file w fs url p).fs p = true := by
  rw [download_file_eq] at h ⊢
  by_cases hp : pathExists fs p = true
  · rw [if_pos hp]; exact hp
  · simp only [Bool.not_eq_true] at hp
    simp only [hp, Bool.false_eq_true, if_false] at h ⊢
    cases hn : w.net url with
    | failEarly => rw [hn] at h; simp at h
    | success c =>
        rw [hn] at h
        by_cases hw : w.unwritable p = true
        · simp [hw] at h
        · simp [hw, pathExists_writeFile]
    | failMid pre =>
        rw [hn] at h
        by_cases hw : w.unwritable p = true
        · simp [hw] at h
        · simp [hw] at h

theorem fetchAll_fs_mono (w : World) (units : List (String × Path)) (fs : FS)
    (q : Path) (h : pathExists fs q = true) :
    pathExists (download_files_parallel w fs units).fs q = true := by
  induction units generalizing fs with
  | nil => exact h
  | cons u rest ih =>
      simp only [download_files_parallel]
      exact ih _ (download_file_fs_mono w fs u.1 u.2 q h)

theorem fetchAll_outcomes_length (w : World) (units : List (String × Path))
    (fs : FS) :
    (download_files_parallel w fs units).outcomes.length = units.length := by
  induction units generalizing fs with
  | nil => rfl
  | cons u rest ih => simp [download_files_parallel, ih]

theorem fetchAll_all_exist_skips (w : World) (units : List (String × Path))
    (fs : FS) (h : ∀ up ∈ units, pathExists fs up.2 = true) :
    download_files_parallel w fs units =
      ⟨fs, units.map (fun _ => .skipped), []⟩ := by
  induction units generalizing fs with
  | nil => rfl
  | cons u rest ih =>
      have hu : pathExists fs u.2 = true := h u (by simp)
      simp only [download_files_parallel, download_file_of_exists w fs u.1 u.2 hu]
      rw [ih fs (fun x hx => h x (List.mem_cons_of_mem u hx))]
      simp

theorem fetchAll_not_failed_dest_exists (w : World)
    (units : List (String × Path)) (fs : FS)
    (h : ∀ o ∈ (download_files_parallel w fs units).outcomes, o ≠ .failed) :
    ∀ up ∈ units,
      pathExists (download_files_parallel w fs units).fs up.2 = true := by
  induction units generalizing fs with
  | nil => intro up hup; cases hup
  | cons u rest ih =>
      intro up hup
      simp only [download_files_parallel, List.mem_cons] at h hup ⊢
      rcases hup with rfl | hup
      · have h1 : (download_file w fs up.1 up.2).outcome ≠ .failed := by
          refine h _ (Or.inl ?_); rfl
        exact fetchAll_fs_mono w rest _ up.2
          (download_file_not_failed_exists w fs up.1 up.2 h1)
      · exact ih _ (fun o ho => h o (Or.inr ho)) up hup

/-! ## C10 -/

/-- C10: for every url and save path, `download_file` returns normally — the
`except Exception` block catches every transport, HTTP-status and write
error — and the value returned to the caller is always `None`, carrying no
indication of whether the transfer succeeded, was skipped, or failed. -/
theorem download_file_never_raises (w : World) (fs : FS) (url : String)
    (p : Path) : (download_file w fs url p).toCaller = Except.ok () := by
  simp only [download_file]
  split
  · rfl
  · split <;> rfl

/-! ## C1 -/

/-- C1 (amended): asset expansion emits exactly one Transfer Unit per
logical-name entry of the asset index — not one per unique hash — with url
and destination both determined by the hash alone; hence two logical names
sharing a hash yield two scheduled units with the same destination. -/
theorem expand_assets_one_unit_per_name (w : World) (versionId : String)
    (objs : List (String × String)) (fs : FS) :
    (expand_assets w versionId fs objs).2 =
      objs.map (fun o =>
        (asset_object_url o.2, asset_object_path w versionId o.2)) := by
  induction objs generalizing fs with
  | nil => rfl
  | cons o rest ih => simp [expand_assets, ih]

/-- A world in which every piece of remote metadata is well-formed: the
manifest maps version `1.20` to descriptor url `vu`; the descriptor lists the
client JAR at `cu`, one concrete library artifact and one artifact-less
entry, and the asset index at `aiu`; the asset index maps two logical names
to the single hash `aabbcc`. The urls `failu` and `midu` fail early and
mid-stream respectively; every other streamed request succeeds. -/
def exWorld : World where
  appdata := "A"
  net := fun u =>
    if u = "failu" then .failEarly
    else if u = "midu" then .failMid "PART"
    else .success ("C:" ++ u)
  net2 := fun u =>
    if u = VERSION_MANIFEST_URL then some ⟨200, "MC"⟩
    else if u = "vu" then some ⟨200, "VC"⟩
    else none
  unwritable := fun _ => false
  parseManifest := fun c => if c = "MC" then some [("1.20", "vu")] else none
  parseVersionData := fun c =>
    if c = "VC" then
      some ⟨"cu", [some ⟨"lu", "com/ex/a.jar"⟩, none], "aiu"⟩
    else none
  parseAssetIndex := fun c =>
    if c = "C:aiu" then some [("name1", "aabbcc"), ("name2", "aabbcc")]
    else none

/-- C1 (counterexample): an asset index with two logical names mapping to the
same hash `aabbcc` makes the run schedule two asset Transfer Units, not one,
and the two scheduled transfers share their destination path — refuting both
halves of the claim at a concrete input. -/
theorem expand_assets_no_dedup_counterexample :
    (mainRun exWorld ⟨[], []⟩ "1.20").2.toOption.map
        (fun r => (r.assetUnits.length,
          decide (r.assetUnits.map Prod.snd).Nodup)) =
      some (2, false) := by
  decide

/-! ## C9 -/

/-- C9: a transfer that fails after the destination file has been opened
(mid-stream failure with prefix `pre` written) marks the unit failed but
leaves the partially written destination on disk, and any subsequent
`download_file` on the same destination is skipped by the presence check. -/
theorem failed_transfer_leaves_file_then_skips (w : World) (fs : FS)
    (url : String) (p : Path) (pre : Content)
    (hfresh : pathExists fs p = false)
    (hnet : w.net url = .failMid pre)
    (hw : w.unwritable p = false) :
    (download_file w fs url p).outcome = .failed ∧
    pathExists (download_file w fs url p).fs p = true ∧
    ∀ url2, download_file w (download_file w fs url p).fs url2 p =
      ⟨(download_file w fs url p).fs, .skipped, [], .ok ()⟩ := by
  have hstep : download_file w fs url p =
      ⟨writeFile fs p pre, .failed, [url], .ok ()⟩ := by
    simp [download_file, download_body, hfresh, hnet, hw]
  refine ⟨by rw [hstep], ?_, ?_⟩
  · rw [hstep]; simp [pathExists_writeFile]
  · intro url2
    rw [hstep]
    exact download_file_of_exists w _ url2 p (by simp [pathExists_writeFile])

/-- C9 witness: the hypotheses and conclusion of
`failed_transfer_leaves_file_then_skips` hold at a concrete input, via the
mid-stream-failing url of `exWorld`. -/
theorem failed_transfer_leaves_file_then_skips_witness :
    (download_file exWorld ⟨[], []⟩ "midu" ["A", "f"]).outcome = .failed ∧
    pathExists (download_file exWorld ⟨[], []⟩ "midu" ["A", "f"]).fs
      ["A", "f"] = true ∧
    ∀ url2, download_file exWorld
        (download_file exWorld ⟨[], []⟩ "midu" ["A", "f"]).fs url2 ["A", "f"] =
      ⟨(download_file exWorld ⟨[], []⟩ "midu" ["A", "f"]).fs, .skipped, [],
        .ok ()⟩ :=
  failed_transfer_leaves_file_then_skips exWorld ⟨[], []⟩ "midu" ["A", "f"]
    "PART" (by decide) (by decide) (by decide)

/-! ## C3 -/

/-- C3 (counterexample): one unit whose request fails before the destination
is opened leaves no file behind, so the second `fetchAll` on the same unit
list is not `Skipped` — it is `Failed` again — and it issues a network
request, refuting the unconditional second half of the claim. -/
theorem second_run_retries_counterexample :
    (download_files_parallel exWorld
        (download_files_parallel exWorld ⟨[], []⟩ [("failu", ["A", "d"])]).fs
        [("failu", ["A", "d"])]).outcomes = [.failed] ∧
    (download_files_parallel exWorld
        (download_files_parallel exWorld ⟨[], []⟩ [("failu", ["A", "d"])]).fs
        [("failu", ["A", "d"])]).reqs = ["failu"] := by
  decide

/-- C3 (amended): a unit whose destination already exists (of any size) is
marked `Skipped` with no network request and no filesystem change; and when
the first `fetchAll` run left no unit `Failed`, running `fetchAll` again on
the same unit list with no intervening deletion yields `Skipped` for every
unit, performs zero network requests, and leaves the filesystem unchanged. -/
theorem skip_if_exists_and_rerun_skips :
    (∀ w fs url p, pathExists fs p = true →
        download_file w fs url p = ⟨fs, .skipped, [], .ok ()⟩) ∧
    (∀ w fs units,
        (∀ o ∈ (download_files_parallel w fs units).outcomes, o ≠ .failed) →
        download_files_parallel w (download_files_parallel w fs units).fs
            units =
          ⟨(download_files_parallel w fs units).fs,
            units.map (fun _ => .skipped), []⟩) := by
  constructor
  · exact fun w fs url p h => download_file_of_exists w fs url p h
  · intro w fs units h
    exact fetchAll_all_exist_skips w units _
      (fetchAll_not_failed_dest_exists w units fs h)

/-- C3 witness: `skip_if_exists_and_rerun_skips` applied at concrete inputs —
a pre-existing destination is skipped without a request, and a second run
over a unit list whose first run fully succeeded is all-`Skipped` with no
requests. -/
theorem skip_if_exists_and_rerun_skips_witness :
    download_file exWorld ⟨[(["A", "d"], "X")], []⟩ "u1" ["A", "d"] =
      ⟨⟨[(["A", "d"], "X")], []⟩, .skipped, [], .ok ()⟩ ∧
    download_files_parallel exWorld
        (download_files_parallel exWorld ⟨[], []⟩
          [("u1", ["A", "d1"]), ("u2", ["A", "d2"])]).fs
        [("u1", ["A", "d1"]), ("u2", ["A", "d2"])] =
      ⟨(download_files_parallel exWorld ⟨[], []⟩
          [("u1", ["A", "d1"]), ("u2", ["A", "d2"])]).fs,
        [.skipped, .skipped], []⟩ :=
  ⟨skip_if_exists_and_rerun_skips.1 exWorld ⟨[(["A", "d"], "X")], []⟩ "u1"
      ["A", "d"] (by decide),
   by
    have h := skip_if_exists_and_rerun_skips.2 exWorld ⟨[], []⟩
      [("u1", ["A", "d1"]), ("u2", ["A", "d2"])] (by decide)
    simpa using h⟩

/-! ## C4 -/

/-- The outcome one unit gets when its destination does not exist yet:
determined by the network behaviour of its url and the writability of its
destination, independently of every other unit. -/
def freshOutcome (w : World) (up : String × Path) : Outcome :=
  match w.net up.1 with
  | .success _ => if w.unwritable up.2 then .failed else .downloaded
  | .failEarly => .failed
  | .failMid _ => .failed

theorem fetchAll_fresh_outcomes (w : World) (units : List (String × Path))
    (fs : FS)
    (hfresh : ∀ up ∈ units, pathExists fs up.2 = false)
    (hdisj : units.Pairwise (fun a b => a.2 ≠ b.2)) :
    (download_files_parallel w fs units).outcomes =
      units.map (freshOutcome w) := by
  induction units generalizing fs with
  | nil => rfl
  | cons u rest ih =>
      have hu : pathExists fs u.2 = false := hfresh u (by simp)
      have hrest : ∀ up ∈ rest,
          pathExists (download_file w fs u.1 u.2).fs up.2 = false := by
        intro up hup
        have hne : u.2 ≠ up.2 := (List.pairwise_cons.mp hdisj).1 up hup
        have hf : pathExists fs up.2 = false :=
          hfresh up (List.mem_cons_of_mem u hup)
        rw [download_file_eq]
        rw [hu]
        simp only [Bool.false_eq_true, if_false]
        cases w.net u.1 with
        | failEarly => exact hf
        | success c =>
            by_cases hw : w.unwritable u.2 = true
            · simp [hw, hf]
            · simp [hw, pathExists_writeFile, hf,
                beq_eq_false_iff_ne.mpr hne]
        | failMid pre =>
            by_cases hw : w.unwritable u.2 = true
            · simp [hw, hf]
            · simp [hw, pathExists_writeFile, hf,
                beq_eq_false_iff_ne.mpr hne]
      have hout : (download_file w fs u.1 u.2).outcome = freshOutcome w u := by
        rw [download_file_eq, hu]
        simp only [Bool.false_eq_true, if_false, freshOutcome]
        cases w.net u.1 with
        | failEarly => rfl
        | success c => by_cases hw : w.unwritable u.2 = true <;> simp [hw]
        | failMid pre => by_cases hw : w.unwritable u.2 = true <;> simp [hw]
      simp only [download_files_parallel, List.map_cons]
      rw [hout, ih _ hrest (List.Pairwise.of_cons hdisj)]

/-- C4: over a unit list with pairwise-distinct, not-yet-present
destinations, every unit is processed to its own outcome (no abort: one
outcome per unit), and when exactly one unit's transfer fails — transport
error, non-success status, or write error — the outcome list contains exactly
one `Failed` and every other unit ends `Downloaded` (hence `Downloaded` or
`Skipped`): a single failure never aborts sibling transfers or the run. -/
theorem failure_isolation (w : World) (fs : FS)
    (units : List (String × Path))
    (hfresh : ∀ up ∈ units, pathExists fs up.2 = false)
    (hdisj : units.Pairwise (fun a b => a.2 ≠ b.2))
    (hone : (units.map (freshOutcome w)).count .failed = 1) :
    (download_files_parallel w fs units).outcomes.length = units.length ∧
    (download_files_parallel w fs units).outcomes.count .failed = 1 ∧
    ∀ o ∈ (download_files_parallel w fs units).outcomes,
      o ≠ .failed → o = .downloaded := by
  have he := fetchAll_fresh_outcomes w units fs hfresh hdisj
  refine ⟨fetchAll_outcomes_length w units fs, by rw [he]; exact hone, ?_⟩
  intro o ho hne
  rw [he] at ho
  obtain ⟨up, _, rfl⟩ := List.mem_map.mp ho
  revert hne
  simp only [freshOutcome]
  cases w.net up.1 with
  | failEarly => intro hne; exact absurd rfl hne
  | success c =>
      by_cases hw : w.unwritable up.2 = true
      · simp [hw]
      · simp [hw]
  | failMid pre => intro hne; exact absurd rfl hne

/-- C4 witness: `failure_isolation` at a concrete three-unit list in which
exactly the middle unit's source is unreachable: three outcomes, exactly one
`Failed`, the rest `Downloaded`. -/
theorem failure_isolation_witness :
    (download_files_parallel exWorld ⟨[], []⟩
        [("u1", ["A", "d1"]), ("failu", ["A", "d2"]),
          ("u2", ["A", "d3"])]).outcomes.length = 3 ∧
    (download_files_parallel exWorld ⟨[], []⟩
        [("u1", ["A", "d1"]), ("failu", ["A", "d2"]),
          ("u2", ["A", "d3"])]).outcomes.count .failed = 1 ∧
    ∀ o ∈ (download_files_parallel exWorld ⟨[], []⟩
        [("u1", ["A", "d1"]), ("failu", ["A", "d2"]),
          ("u2", ["A", "d3"])]).outcomes,
      o ≠ .failed → o = .downloaded :=
  failure_isolation exWorld ⟨[], []⟩
    [("u1", ["A", "d1"]), ("failu", ["A", "d2"]), ("u2", ["A", "d3"])]
    (by decide) (by decide) (by decide)

/-! ## C5 -/

/-- C5: when the global index cannot be retrieved (the request raises, or a
non-200 status) or cannot be parsed, the run fails with the manifest-
unavailable error; and when the requested version id is absent from the
index's key set, the run fails with the version-not-found error having
requested only the manifest url — so it aborts before any network fetch of a
version descriptor. -/
theorem resolution_failure_modes :
    (∀ w fs vid, w.net2 VERSION_MANIFEST_URL = none →
        mainRun w fs vid =
          ([VERSION_MANIFEST_URL], .error .manifestUnavailable)) ∧
    (∀ w fs vid r, w.net2 VERSION_MANIFEST_URL = some r → r.status ≠ 200 →
        mainRun w fs vid =
          ([VERSION_MANIFEST_URL], .error .manifestUnavailable)) ∧
    (∀ w fs vid r, w.net2 VERSION_MANIFEST_URL = some r → r.status = 200 →
        w.unwritable (manifest_path w) = false →
        w.parseManifest r.content = none →
        mainRun w fs vid =
          ([VERSION_MANIFEST_URL], .error .manifestUnavailable)) ∧
    (∀ w fs vid r vlist, w.net2 VERSION_MANIFEST_URL = some r →
        r.status = 200 → w.unwritable (manifest_path w) = false →
        w.parseManifest r.content = some vlist →
        pyDictLookup vlist vid = none →
        mainRun w fs vid = ([VERSION_MANIFEST_URL], .error .versionNotFound)) := by
  refine ⟨?_, ?_, ?_, ?_⟩
  · intro w fs vid h
    simp [mainRun, resolveDescriptor, h]
  · intro w fs vid r h hs
    simp [mainRun, resolveDescriptor, h, hs]
  · intro w fs vid r h hs hw hp
    simp [mainRun, resolveDescriptor, h, hs, hw, hp]
  · intro w fs vid r vlist h hs hw hp hl
    simp [mainRun, resolveDescriptor, h, hs, hw, hp, hl]

/-- A world whose network is entirely unreachable for plain requests. -/
def exWorldNoNet : World := { exWorld with net2 := fun _ => none }

/-- A world whose manifest request returns HTTP 503. -/
def exWorldBadStatus : World :=
  { exWorld with
    net2 := fun u =>
      if u = VERSION_MANIFEST_URL then some ⟨503, "E"⟩ else none }

/-- A world whose manifest bytes do not parse as JSON. -/
def exWorldBadManifest : World :=
  { exWorld with parseManifest := fun _ => none }

/-- C5 witness: the four failure modes of `resolution_failure_modes` at
concrete worlds, including a version id (`9.99`) absent from the index. -/
theorem resolution_failure_modes_witness :
    mainRun exWorldNoNet ⟨[], []⟩ "1.20" =
      ([VERSION_MANIFEST_URL], .error .manifestUnavailable) ∧
    mainRun exWorldBadStatus ⟨[], []⟩ "1.20" =
      ([VERSION_MANIFEST_URL], .error .manifestUnavailable) ∧
    mainRun exWorldBadManifest ⟨[], []⟩ "1.20" =
      ([VERSION_MANIFEST_URL], .error .manifestUnavailable) ∧
    mainRun exWorld ⟨[], []⟩ "9.99" =
      ([VERSION_MANIFEST_URL], .error .versionNotFound) :=
  ⟨resolution_failure_modes.1 exWorldNoNet ⟨[], []⟩ "1.20" rfl,
   resolution_failure_modes.2.1 exWorldBadStatus ⟨[], []⟩ "1.20" ⟨503, "E"⟩
     (by decide) (by decide),
   resolution_failure_modes.2.2.1 exWorldBadManifest ⟨[], []⟩ "1.20"
     ⟨200, "MC"⟩ (by decide) rfl (by decide) rfl,
   resolution_failure_modes.2.2.2 exWorld ⟨[], []⟩ "9.99" ⟨200, "MC"⟩
     [("1.20", "vu")] (by decide) rfl (by decide) (by decide) (by decide)⟩

/-! ## C2 -/

theorem expand_libraries_units_length (vlp : Path) :
    ∀ (fs : FS) (libs : List (Option Artifact)),
      (expand_libraries vlp fs libs).2.length = (libs.filterMap id).length := by
  intro fs libs
  induction libs generalizing fs with
  | nil => rfl
  | cons a rest ih =>
      cases a with
      | none => simpa [expand_libraries] using ih fs
      | some a => simp [expand_libraries, ih]

/-- The only errors `step6_read_index` can produce are a missing and an
unparseable asset index. -/
theorem step6_read_index_error_cases (w : World) (d : DLOut) (vid : String)
    (e : FatalError) (h : step6_read_index w d vid = .error e) :
    e = .assetIndexMissing ∨ e = .assetIndexParseError := by
  unfold step6_read_index at h
  split at h
  · cases h; exact Or.inl rfl
  · split at h
    · cases h; exact Or.inr rfl
    · cases h

/-- The only fatal errors `step6_assets` can produce are a missing and an
unparseable asset index. -/
theorem step6_error_cases (w : World) (fs : FS) (vd : VersionData)
    (vid : String) (e : FatalError)
    (h : (step6_assets w fs vd vid).result = .error e) :
    e = .assetIndexMissing ∨ e = .assetIndexParseError := by
  simp only [step6_assets] at h
  cases hr : step6_read_index w (step6_fetch_index w fs vd vid) vid with
  | error e0 =>
      rw [hr] at h
      simp only at h
      cases h
      exact step6_read_index_error_cases w _ vid _ hr
  | ok objects => rw [hr] at h; simp at h

/-- A successful `step6_assets` yields one outcome per scheduled asset
unit. -/
theorem step6_ok_outcomes_length (w : World) (fs : FS) (vd : VersionData)
    (vid : String) (fsF : FS) (au : List (String × Path))
    (ao : List Outcome)
    (h : (step6_assets w fs vd vid).result = .ok (fsF, au, ao)) :
    ao.length = au.length := by
  simp only [step6_assets] at h
  cases hr : step6_read_index w (step6_fetch_index w fs vd vid) vid with
  | error e0 => rw [hr] at h; simp at h
  | ok objects =>
      rw [hr] at h
      simp only [Except.ok.injEq, Prod.mk.injEq] at h
      obtain ⟨-, h2, h3⟩ := h
      subst h2
      subst h3
      exact fetchAll_outcomes_length w _ _

/-- C2 (amended): a failed runtime (client JAR) fetch does not abort the run
and is not fatal: the client unit ends `Failed`; the library step is still
executed, producing one outcome per concrete library artifact; the run's
result is exactly the result of continuing through steps 4–6 (no abort at
the client fetch); and when the run completes, its report records the failed
runtime alongside one outcome per concrete library and per asset unit —
completing does not require the runtime fetch to succeed. -/
theorem runtime_fetch_failure_not_fatal (w : World) (fs0 : FS) (vid : String)
    (rm rv : HttpResponse) (vlist : List (String × String)) (vurl : String)
    (vd : VersionData)
    (hm : w.net2 VERSION_MANIFEST_URL = some rm) (hms : rm.status = 200)
    (hmw : w.unwritable (manifest_path w) = false)
    (hmp : w.parseManifest rm.content = some vlist)
    (hvl : pyDictLookup vlist vid = some vurl)
    (hdv : w.net2 vurl = some rv) (hds : rv.status = 200)
    (hdp : w.parseVersionData rv.content = some vd)
    (hcf : w.net vd.clientUrl = .failEarly)
    (hcp : pathExists
        (mkdirs (writeFile fs0 (manifest_path w) rm.content)
          (version_libraries_path w vid))
        (client_path w vid) = false) :
    (step4_client w (writeFile fs0 (manifest_path w) rm.content) vd
        vid).outcome = .failed ∧
    (step5_libraries w
        (step4_client w (writeFile fs0 (manifest_path w) rm.content) vd
          vid).fs vd vid).outcomes.length =
      (vd.libraries.filterMap id).length ∧
    (mainRun w fs0 vid).2 =
      (runFrom4 w (writeFile fs0 (manifest_path w) rm.content) vd vid).2 ∧
    (∀ rep, (mainRun w fs0 vid).2 = .ok rep →
        rep.clientOutcome = .failed ∧
        rep.libraryOutcomes.length = (vd.libraries.filterMap id).length ∧
        rep.assetOutcomes.length = rep.assetUnits.length) := by
  set fs1 := writeFile fs0 (manifest_path w) rm.content with hfs1
  have hres : resolveDescriptor w fs0 vid =
      ([VERSION_MANIFEST_URL, vurl], .ok (fs1, vd)) := by
    simp [resolveDescriptor, hm, hms, hmw, hmp, hvl, hdv, hds, hdp, hfs1]
  have hc : step4_client w fs1 vd vid =
      ⟨mkdirs fs1 (version_libraries_path w vid), .failed, [vd.clientUrl],
        .ok ()⟩ := by
    unfold step4_client
    rw [download_file_eq, hcp, hcf]
    simp
  have hmain : mainRun w fs0 vid =
      ([VERSION_MANIFEST_URL, vurl] ++ (runFrom4 w fs1 vd vid).1,
        (runFrom4 w fs1 vd vid).2) := by
    simp [mainRun, hres]
  refine ⟨by rw [hc], ?_, ?_, ?_⟩
  · simp only [step5_libraries]
    rw [fetchAll_outcomes_length, expand_libraries_units_length]
  · rw [hmain]
  · intro rep hrep
    rw [hmain] at hrep
    simp only [runFrom4] at hrep
    revert hrep
    cases h6 : (step6_assets w
        (step5_libraries w (step4_client w fs1 vd vid).fs vd vid).fs vd
        vid).result with
    | error e0 => intro hrep; simp at hrep
    | ok v =>
        intro hrep
        obtain ⟨fsF, au, ao⟩ := v
        simp only [Except.ok.injEq] at hrep
        subst hrep
        refine ⟨by rw [hc], ?_, ?_⟩
        · simp only [step5_libraries]
          rw [fetchAll_outcomes_length, expand_libraries_units_length]
        · exact step6_ok_outcomes_length w _ vd vid fsF au ao h6

/-- A world identical to `exWorld` except that the client JAR url `cu` is
unreachable. -/
def exWorldClientFail : World :=
  { exWorld with
    net := fun u => if u = "cu" then .failEarly else exWorld.net u }

/-- C2 (counterexample): with every metadata stage healthy but the client
JAR unreachable, the run does not abort: it completes with a report whose
client outcome is `Failed` while the library and the asset were still
downloaded — refuting both the abort-before-libraries claim and the claim
that overall success requires the runtime fetch to succeed. -/
theorem runtime_fetch_failure_no_abort_counterexample :
    (mainRun exWorldClientFail ⟨[], []⟩ "1.20").2.toOption.map
        (fun r => (r.clientOutcome, r.libraryOutcomes, r.assetOutcomes)) =
      some (.failed, [.downloaded], [.downloaded, .skipped]) := by
  decide

/-- C2 witness: `runtime_fetch_failure_not_fatal` at the concrete world
`exWorldClientFail`. -/
theorem runtime_fetch_failure_not_fatal_witness :
    (step4_client exWorldClientFail
        (writeFile ⟨[], []⟩ (manifest_path exWorldClientFail) "MC")
        ⟨"cu", [some ⟨"lu", "com/ex/a.jar"⟩, none], "aiu"⟩
        "1.20").outcome = .failed ∧
    (step5_libraries exWorldClientFail
        (step4_client exWorldClientFail
          (writeFile ⟨[], []⟩ (manifest_path exWorldClientFail) "MC")
          ⟨"cu", [some ⟨"lu", "com/ex/a.jar"⟩, none], "aiu"⟩
          "1.20").fs
        ⟨"cu", [some ⟨"lu", "com/ex/a.jar"⟩, none], "aiu"⟩
        "1.20").outcomes.length =
      ((⟨"cu", [some ⟨"lu", "com/ex/a.jar"⟩, none], "aiu"⟩ :
        VersionData).libraries.filterMap id).length ∧
    (mainRun exWorldClientFail ⟨[], []⟩ "1.20").2 =
      (runFrom4 exWorldClientFail
        (writeFile ⟨[], []⟩ (manifest_path exWorldClientFail) "MC")
        ⟨"cu", [some ⟨"lu", "com/ex/a.jar"⟩, none], "aiu"⟩ "1.20").2 ∧
    (∀ rep, (mainRun exWorldClientFail ⟨[], []⟩ "1.20").2 = .ok rep →
        rep.clientOutcome = .failed ∧
        rep.libraryOutcomes.length =
          ((⟨"cu", [some ⟨"lu", "com/ex/a.jar"⟩, none], "aiu"⟩ :
            VersionData).libraries.filterMap id).length ∧
        rep.assetOutcomes.length = rep.assetUnits.length) :=
  runtime_fetch_failure_not_fatal exWorldClientFail ⟨[], []⟩ "1.20"
    ⟨200, "MC"⟩ ⟨200, "VC"⟩ [("1.20", "vu")] "vu"
    ⟨"cu", [some ⟨"lu", "com/ex/a.jar"⟩, none], "aiu"⟩
    (by decide) rfl (by decide) (by decide) (by decide) (by decide) rfl
    (by decide) (by decide) (by decide)

/-! ## C6 -/

theorem splitSlashAux_ne_nil : ∀ l : List Char, splitSlashAux l ≠ []
  | [] => by simp [splitSlashAux]
  | c :: cs => by
      simp only [splitSlashAux]
      split <;> simp

theorem pySplitSlash_ne_nil (s : String) : pySplitSlash s ≠ [] := by
  simp only [pySplitSlash, Ne, List.map_eq_nil_iff]
  exact splitSlashAux_ne_nil s.toList

theorem dropLast_append_getLastD {α : Type} (d : α) (l : List α)
    (h : l ≠ []) : l.dropLast ++ [l.getLastD d] = l := by
  rw [List.getLastD_eq_getLast?, List.getLast?_eq_getLast l h]
  exact List.dropLast_append_getLast h

/-- C6: the destination layout. The runtime binary goes to
`<libraries-root>/<version>/<version>.jar`; an asset with hash `h` goes to
`<assets-root>/<version>/objects/<h[0:2]>/<h>`; `organize_file_path` sends a
slash- or backslash-separated artifact path to the base directory joined with
its normalized components, and every intermediate directory of the
destination is created. -/
theorem destination_layout :
    (∀ w vid, client_path w vid = LIBRARIES_PATH w ++ [vid, vid ++ ".jar"]) ∧
    (∀ w vid h, asset_object_path w vid h =
        ASSETS_PATH w ++ [vid, "objects", h.take 2, h]) ∧
    (∀ fs base p, (organize_file_path fs base p).2 =
        base ++ pySplitSlash (normalizeSep p)) ∧
    (∀ fs base p q, q <+: base ++ (pySplitSlash (normalizeSep p)).dropLast →
        q ∈ ((organize_file_path fs base p).1).dirs) := by
  refine ⟨?_, ?_, ?_, ?_⟩
  · intro w vid
    simp [client_path, version_libraries_path]
  · intro w vid h
    simp [asset_object_path, version_assets_path]
  · intro fs base p
    simp only [organize_file_path, List.append_assoc]
    rw [dropLast_append_getLastD "" _ (pySplitSlash_ne_nil _)]
  · intro fs base p q hq
    simp only [organize_file_path, mkdirs]
    exact List.mem_append_left _ (List.mem_inits q _ |>.mpr hq)

/-- C6 witness: the layout at concrete inputs — the client JAR for version
`1.20`, an asset hashed `abcd1234`, and a library at Maven coordinate path
`com/example/foo/1.0/foo-1.0.jar` whose `com/example/foo/1.0` directory chain
is created. -/
theorem destination_layout_witness :
    client_path exWorld "1.20" =
      LIBRARIES_PATH exWorld ++ ["1.20", "1.20" ++ ".jar"] ∧
    asset_object_path exWorld "1.20" "abcd1234" =
      ASSETS_PATH exWorld ++
        ["1.20", "objects", ("abcd1234" : String).take 2, "abcd1234"] ∧
    (organize_file_path ⟨[], []⟩ (version_libraries_path exWorld "1.20")
        "com/example/foo/1.0/foo-1.0.jar").2 =
      version_libraries_path exWorld "1.20" ++
        pySplitSlash (normalizeSep "com/example/foo/1.0/foo-1.0.jar") ∧
    version_libraries_path exWorld "1.20" ++ ["com", "example", "foo", "1.0"] ∈
      ((organize_file_path ⟨[], []⟩ (version_libraries_path exWorld "1.20")
        "com/example/foo/1.0/foo-1.0.jar").1).dirs :=
  ⟨destination_layout.1 exWorld "1.20",
   destination_layout.2.1 exWorld "1.20" "abcd1234",
   destination_layout.2.2.1 ⟨[], []⟩ (version_libraries_path exWorld "1.20")
     "com/example/foo/1.0/foo-1.0.jar",
   destination_layout.2.2.2 ⟨[], []⟩ (version_libraries_path exWorld "1.20")
     "com/example/foo/1.0/foo-1.0.jar"
     (version_libraries_path exWorld "1.20" ++ ["com", "example", "foo", "1.0"])
     (by decide)⟩

/-! ## C7 -/

theorem not_append_singleton_prefix {α : Type} (q : List α) (x : α) :
    ¬ (q ++ [x]) <+: q := by
  intro h
  have := h.length_le
  simp at this

/-- `mkdirs` changes no files. -/
theorem readFile_mkdirs (fs : FS) (d p : Path) :
    readFile (mkdirs fs d) p = readFile fs p := rfl

/-- After `step6_fetch_index`, when the asset index destination was absent
and the request failed before the file was opened, the filesystem holds no
asset index file. -/
theorem step6_fetch_index_failEarly (w : World) (fs : FS) (vd : VersionData)
    (vid : String)
    (habsent : pathExists fs (asset_index_path w vid) = false)
    (hnet : w.net vd.assetIndexUrl = .failEarly) :
    step6_fetch_index w fs vd vid =
      ⟨mkdirs fs (version_assets_path w vid ++ ["indexes"]), .failed,
        [vd.assetIndexUrl], .ok ()⟩ := by
  have habsent1 : pathExists
      (mkdirs fs (version_assets_path w vid ++ ["indexes"]))
      (asset_index_path w vid) = false := by
    refine pathExists_mkdirs_of_not fs _ _ habsent ?_
    have : asset_index_path w vid =
        (version_assets_path w vid ++ ["indexes"]) ++ [vid ++ ".json"] := by
      simp [asset_index_path]
    rw [this]
    exact not_append_singleton_prefix _ _
  unfold step6_fetch_index
  rw [download_file_eq, habsent1, hnet]
  simp

/-- C7: a failure to retrieve the asset index (transport error or non-2xx
raise, with no stale index file present) leaves no index file, so the
subsequent `open` aborts the run with the missing-index error; a retrieved
index whose content does not parse aborts it with the parse error; and any
such `step6` error is the final result of the whole run — the error is fatal. -/
theorem asset_index_failure_fatal :
    (∀ w fs vd vid,
        pathExists fs (asset_index_path w vid) = false →
        w.net vd.assetIndexUrl = .failEarly →
        (step6_assets w fs vd vid).result = .error .assetIndexMissing) ∧
    (∀ w fs vd vid c,
        pathExists fs (asset_index_path w vid) = false →
        w.net vd.assetIndexUrl = .success c →
        w.unwritable (asset_index_path w vid) = false →
        w.parseAssetIndex c = none →
        (step6_assets w fs vd vid).result = .error .assetIndexParseError) ∧
    (∀ w fs0 vid rm rv vlist vurl vd e,
        w.net2 VERSION_MANIFEST_URL = some rm → rm.status = 200 →
        w.unwritable (manifest_path w) = false →
        w.parseManifest rm.content = some vlist →
        pyDictLookup vlist vid = some vurl →
        w.net2 vurl = some rv → rv.status = 200 →
        w.parseVersionData rv.content = some vd →
        (step6_assets w
            (step5_libraries w
              (step4_client w (writeFile fs0 (manifest_path w) rm.content)
                vd vid).fs vd vid).fs vd vid).result = .error e →
        (mainRun w fs0 vid).2 = .error e) := by
  refine ⟨?_, ?_, ?_⟩
  · intro w fs vd vid habsent hnet
    have hread : step6_read_index w (step6_fetch_index w fs vd vid) vid =
        .error .assetIndexMissing := by
      unfold step6_read_index
      rw [step6_fetch_index_failEarly w fs vd vid habsent hnet]
      rw [readFile_mkdirs, readFile_eq_none_of_not_exists fs _ habsent]
    simp only [step6_assets]
    rw [hread]
  · intro w fs vd vid c habsent hnet hw hparse
    have habsent1 : pathExists
        (mkdirs fs (version_assets_path w vid ++ ["indexes"]))
        (asset_index_path w vid) = false := by
      refine pathExists_mkdirs_of_not fs _ _ habsent ?_
      have : asset_index_path w vid =
          (version_assets_path w vid ++ ["indexes"]) ++ [vid ++ ".json"] := by
        simp [asset_index_path]
      rw [this]
      exact not_append_singleton_prefix _ _
    have hfetch : step6_fetch_index w fs vd vid =
        ⟨writeFile (mkdirs fs (version_assets_path w vid ++ ["indexes"]))
            (asset_index_path w vid) c, .downloaded,
          [vd.assetIndexUrl], .ok ()⟩ := by
      unfold step6_fetch_index
      rw [download_file_eq, habsent1, hnet]
      simp [hw]
    have hread : step6_read_index w (step6_fetch_index w fs vd vid) vid =
        .error .assetIndexParseError := by
      unfold step6_read_index
      rw [hfetch]
      simp only [readFile_writeFile_self, hparse]
    simp only [step6_assets]
    rw [hread]
  · intro w fs0 vid rm rv vlist vurl vd e hm hms hmw hmp hvl hdv hds hdp h6
    have hres : resolveDescriptor w fs0 vid =
        ([VERSION_MANIFEST_URL, vurl],
          .ok (writeFile fs0 (manifest_path w) rm.content, vd)) := by
      simp [resolveDescriptor, hm, hms, hmw, hmp, hvl, hdv, hds, hdp]
    simp only [mainRun, hres]
    simp only [runFrom4]
    rw [h6]

/-- A world identical to `exWorld` except that the asset index url `aiu` is
unreachable. -/
def exWorldIndexFail : World :=
  { exWorld with
    net := fun u => if u = "aiu" then .failEarly else exWorld.net u }

/-- A world identical to `exWorld` except that no asset index content
parses. -/
def exWorldIndexBad : World :=
  { exWorld with parseAssetIndex := fun _ => none }

/-- C7 witness: `asset_index_failure_fatal` at concrete worlds — an
unreachable index url yields the missing-index error, unparseable index
content yields the parse error, and the missing-index error of the first
scenario is the final result of the whole concrete run. -/
theorem asset_index_failure_fatal_witness :
    (step6_assets exWorldIndexFail ⟨[], []⟩
        ⟨"cu", [], "aiu"⟩ "1.20").result = .error .assetIndexMissing ∧
    (step6_assets exWorldIndexBad ⟨[], []⟩
        ⟨"cu", [], "aiu"⟩ "1.20").result = .error .assetIndexParseError ∧
    (mainRun exWorldIndexFail ⟨[], []⟩ "1.20").2 =
      .error .assetIndexMissing :=
  ⟨asset_index_failure_fatal.1 exWorldIndexFail ⟨[], []⟩ ⟨"cu", [], "aiu"⟩
     "1.20" (by decide) (by decide),
   asset_index_failure_fatal.2.1 exWorldIndexBad ⟨[], []⟩ ⟨"cu", [], "aiu"⟩
     "1.20" "C:aiu" (by decide) (by decide) (by decide) rfl,
   asset_index_failure_fatal.2.2 exWorldIndexFail ⟨[], []⟩ "1.20"
     ⟨200, "MC"⟩ ⟨200, "VC"⟩ [("1.20", "vu")] "vu"
     ⟨"cu", [some ⟨"lu", "com/ex/a.jar"⟩, none], "aiu"⟩ .assetIndexMissing
     (by decide) rfl (by decide) (by decide) (by decide) (by decide) rfl
     (by decide) (by decide)⟩

/-! ## C8 -/

/-- A world identical to `exWorld` except that the manifest destination file
cannot be opened for writing. -/
def exWorldManifestRO : World :=
  { exWorld with unwritable := fun p => p == manifest_path exWorld }

/-- C8 (counterexample): in a world where everything is healthy except that
the raw global manifest cannot be written to disk, the run aborts — failure
to persist the manifest makes resolution fail, refuting "best-effort". -/
theorem manifest_write_failure_fatal_counterexample :
    mainRun exWorldManifestRO ⟨[], []⟩ "1.20" =
      ([VERSION_MANIFEST_URL], .error .manifestWriteError) := by
  decide

/-- C8 (amended): persisting the raw global manifest and the raw asset index
is load-bearing, not best-effort: resolution parses the manifest from the
persisted file, so a failure to write it aborts the run before version
lookup; and the asset index is read back from its persisted file, so an
unwritable asset index destination (the swallowed write failure leaving no
file) aborts the run's asset step with the missing-index error. -/
theorem persistence_is_load_bearing :
    (∀ w fs vid r, w.net2 VERSION_MANIFEST_URL = some r → r.status = 200 →
        w.unwritable (manifest_path w) = true →
        mainRun w fs vid =
          ([VERSION_MANIFEST_URL], .error .manifestWriteError)) ∧
    (∀ w fs vd vid,
        pathExists fs (asset_index_path w vid) = false →
        w.unwritable (asset_index_path w vid) = true →
        (step6_assets w fs vd vid).result = .error .assetIndexMissing) := by
  constructor
  · intro w fs vid r h hs hw
    simp [mainRun, resolveDescriptor, h, hs, hw]
  · intro w fs vd vid habsent hw
    have habsent1 : pathExists
        (mkdirs fs (version_assets_path w vid ++ ["indexes"]))
        (asset_index_path w vid) = false := by
      refine pathExists_mkdirs_of_not fs _ _ habsent ?_
      have : asset_index_path w vid =
          (version_assets_path w vid ++ ["indexes"]) ++ [vid ++ ".json"] := by
        simp [asset_index_path]
      rw [this]
      exact not_append_singleton_prefix _ _
    have hfetch : (step6_fetch_index w fs vd vid).fs =
        mkdirs fs (version_assets_path w vid ++ ["indexes"]) := by
      unfold step6_fetch_index
      rw [download_file_eq, habsent1]
      cases w.net vd.assetIndexUrl with
      | failEarly => rfl
      | success c => simp [hw]
      | failMid pre => simp [hw]
    have hread : step6_read_index w (step6_fetch_index w fs vd vid) vid =
        .error .assetIndexMissing := by
      unfold step6_read_index
      rw [hfetch, readFile_mkdirs, readFile_eq_none_of_not_exists fs _ habsent]
    simp only [step6_assets]
    rw [hread]

/-- A world identical to `exWorld` except that the asset index destination
file cannot be opened for writing. -/
def exWorldIndexRO : World :=
  { exWorld with
    unwritable := fun p => p == asset_index_path exWorld "1.20" }

/-- C8 witness: `persistence_is_load_bearing` at concrete worlds — an
unwritable manifest path aborts the whole run, and an unwritable asset index
path aborts the asset step. -/
theorem persistence_is_load_bearing_witness :
    mainRun exWorldManifestRO ⟨[], []⟩ "1.20" =
      ([VERSION_MANIFEST_URL], .error .manifestWriteError) ∧
    (step6_assets exWorldIndexRO ⟨[], []⟩
        ⟨"cu", [], "aiu"⟩ "1.20").result = .error .assetIndexMissing :=
  ⟨persistence_is_load_bearing.1 exWorldManifestRO ⟨[], []⟩ "1.20"
     ⟨200, "MC"⟩ (by decide) rfl (by decide),
   persistence_is_load_bearing.2 exWorldIndexRO ⟨[], []⟩ ⟨"cu", [], "aiu"⟩
     "1.20" (by decide) (by decide)⟩

end TuiCraft
